import Mathlib

set_option maxRecDepth 16384

/-!
Verification development for the segment-controller firmware
(packet codec and dispatcher, TMC9660 transport, Madgwick estimator).

The definitions below are a shallow embedding of the C sources:
machine integers become `Nat` with explicit masking where the C code
truncates, byte buffers become `List Nat` (each entry one byte of the
buffer), file-scoped mutable state becomes explicit state records that
the embedded functions take and return, and the serial environment of
the TMC9660 transport is passed in as an explicit (optional) reply
frame.  `float` quantities in the Madgwick estimator are modelled as
real numbers.
-/

/- ================= CRC16 (src/src/crc16.h) ================= -/

/-- One bit step of the CRC16-CCITT calculation: shift the 16-bit
accumulator left by one, xor-ing in the polynomial 0x1021 when the top
bit was set.  Models the documented behaviour of the wrapped Zephyr
`crc16_ccitt` routine (polynomial 0x1021, MSB first); the accumulator
is a `uint16_t`, hence the masking with 0xFFFF. -/
def crc16_bit (c : Nat) : Nat :=
  if c &&& 0x8000 ≠ 0 then ((c <<< 1) ^^^ 0x1021) &&& 0xFFFF
  else (c <<< 1) &&& 0xFFFF

/-- Fold one data byte into the CRC16 accumulator: xor the byte into
the high accumulator byte, then run eight bit steps. -/
def crc16_update (crc b : Nat) : Nat :=
  crc16_bit (crc16_bit (crc16_bit (crc16_bit
    (crc16_bit (crc16_bit (crc16_bit (crc16_bit (crc ^^^ (b <<< 8)))))))))

/-- Model of `crc16_ccitt(seed, data, length)` (the Zephyr routine the
repository's `crc16.h` wraps, per its documented parameters:
polynomial 0x1021, caller-supplied seed, here always 0xFFFF). -/
def crc16_ccitt (seed : Nat) (data : List Nat) : Nat :=
  data.foldl crc16_update seed

/-- Model of `crc16_verify` from `src/src/crc16.h`: buffers shorter
than two bytes fail; otherwise the CRC16 of all bytes but the final
two must equal the little-endian 16-bit value stored in those final
two bytes. -/
def crc16_verify (data : List Nat) : Bool :=
  if data.length < 2 then false
  else
    let calculated_crc := crc16_ccitt 0xFFFF (data.take (data.length - 2))
    let packet_crc := data.getD (data.length - 2) 0 ||| (data.getD (data.length - 1) 0 <<< 8)
    calculated_crc == packet_crc

/- ============ Packet protocol constants (src/src/packet.h) ============ -/

def PACKET_MAGIC_MASTER_TO_STM32 : Nat := 0xAA55
def PACKET_MAGIC_STM32_TO_MASTER : Nat := 0xBB55

def CMD_TRAJECTORY : Nat := 0x01
def CMD_EMERGENCY_STOP : Nat := 0x02
def CMD_START_HOMING : Nat := 0x03
def CMD_JOG_MOTOR : Nat := 0x07
def CMD_SET_MODE : Nat := 0x08
def CMD_SET_ZERO_OFFSET : Nat := 0x09

def FEEDBACK_MOTOR_STATE : Nat := 0x01
def FEEDBACK_DIAGNOSTICS : Nat := 0x03

def MODE_IDLE : Nat := 0x01
def MODE_HOMING : Nat := 0x02
def MODE_OPERATION : Nat := 0x03

def STATUS_E_STOP_ACTIVE : Nat := 1 <<< 0
def STATUS_HOMING_IN_PROGRESS : Nat := 1 <<< 1
def STATUS_TRAJECTORY_EXECUTING : Nat := 1 <<< 5
def STATUS_ERROR_PRESENT : Nat := 1 <<< 7

def ERROR_NO_ERROR : Nat := 0x00
def ERROR_CRC_ERROR : Nat := 0x05

/-- Byte sizes of the six packed command structs
(`sizeof(trajectory_packet_t)` and friends in `src/src/packet.h`). -/
def trajectory_packet_size : Nat := 112
def emergency_stop_packet_size : Nat := 7
def start_homing_packet_size : Nat := 7
def jog_motor_packet_size : Nat := 13
def set_mode_packet_size : Nat := 7
def set_zero_offset_packet_size : Nat := 6

/-- Fixed size of the command struct selected by a type byte (used only
to state claims about the dispatcher's per-type size check). -/
def packet_command_size (t : Nat) : Nat :=
  if t = CMD_TRAJECTORY then trajectory_packet_size
  else if t = CMD_EMERGENCY_STOP then emergency_stop_packet_size
  else if t = CMD_START_HOMING then start_homing_packet_size
  else if t = CMD_JOG_MOTOR then jog_motor_packet_size
  else if t = CMD_SET_MODE then set_mode_packet_size
  else if t = CMD_SET_ZERO_OFFSET then set_zero_offset_packet_size
  else 0

/- ============ System state (file-scoped statics of src/src/packet.c) ============ -/

/-- The file-scoped mutable state of `src/src/packet.c`:
`current_mode`, `emergency_stop_active`, `error_count` (a `uint16_t`),
`last_error` and `my_segment_id`. -/
structure SystemState where
  current_mode : Nat
  emergency_stop_active : Bool
  error_count : Nat
  last_error : Nat
  my_segment_id : Nat
deriving DecidableEq

/-- State update shared by the three early error paths of
`packet_parse_command`: `error_count++` (`uint16_t`, hence the modulus)
and `last_error = ERROR_CRC_ERROR`. -/
def recordPacketError (s : SystemState) : SystemState :=
  { s with error_count := (s.error_count + 1) % 65536, last_error := ERROR_CRC_ERROR }

/-- Model of `packet_handle_emergency_stop` (src/src/packet.c lines
117-136): when the target segment id is 0xFF (broadcast) or equals
this node's id, latch the emergency stop and force the mode to Idle;
otherwise the state is untouched. -/
def packet_handle_emergency_stop (s : SystemState) (segment_id : Nat) : SystemState :=
  if segment_id = 0xFF ∨ segment_id = s.my_segment_id then
    { s with emergency_stop_active := true, current_mode := MODE_IDLE }
  else s

/-- Model of `packet_handle_set_mode` (src/src/packet.c lines
138-164): unconditionally write the raw requested mode byte into
`current_mode`, then clear the emergency-stop latch exactly when the
requested mode is Operation. -/
def packet_handle_set_mode (s : SystemState) (mode : Nat) : SystemState :=
  let s := { s with current_mode := mode }
  if mode = MODE_OPERATION then { s with emergency_stop_active := false } else s

/-- Model of `packet_parse_command` (src/src/packet.c lines 28-115).
The returned `Int` is the C return value (packet type on success, -1
on error); the returned `SystemState` is the file-scoped state after
the call.  The `printk`-only branches (trajectory, jog, zero offset)
leave the state untouched, exactly as the source does. -/
def packet_parse_command (s : SystemState) (data : List Nat) : Int × SystemState :=
  if data.length < 6 then (-1, recordPacketError s)
  else
    let magic := data.getD 0 0 ||| (data.getD 1 0 <<< 8)
    if magic ≠ PACKET_MAGIC_MASTER_TO_STM32 then (-1, recordPacketError s)
    else if ¬ crc16_verify data then (-1, recordPacketError s)
    else
      let packet_type := data.getD 2 0
      if packet_type = CMD_TRAJECTORY then
        if data.length = trajectory_packet_size then ((packet_type : Int), s)
        else (-1, s)
      else if packet_type = CMD_EMERGENCY_STOP then
        if data.length = emergency_stop_packet_size then
          ((packet_type : Int), packet_handle_emergency_stop s (data.getD 3 0))
        else (-1, s)
      else if packet_type = CMD_START_HOMING then
        if data.length = start_homing_packet_size then
          ((packet_type : Int), { s with current_mode := MODE_HOMING })
        else ((packet_type : Int), s)
      else if packet_type = CMD_JOG_MOTOR then
        if data.length = jog_motor_packet_size then ((packet_type : Int), s)
        else ((packet_type : Int), s)
      else if packet_type = CMD_SET_MODE then
        if data.length = set_mode_packet_size then
          ((packet_type : Int), packet_handle_set_mode s (data.getD 4 0))
        else ((packet_type : Int), s)
      else if packet_type = CMD_SET_ZERO_OFFSET then
        if data.length = set_zero_offset_packet_size then ((packet_type : Int), s)
        else ((packet_type : Int), s)
      else (-1, s)

/-- Model of `packet_get_status_flags` (src/src/packet.c lines
251-276). -/
def packet_get_status_flags (s : SystemState) : Nat :=
  let flags := 0
  let flags := if s.emergency_stop_active then flags ||| STATUS_E_STOP_ACTIVE else flags
  let flags := if s.current_mode = MODE_HOMING then flags ||| STATUS_HOMING_IN_PROGRESS else flags
  let flags := if s.current_mode = MODE_OPERATION then flags ||| STATUS_TRAJECTORY_EXECUTING else flags
  let flags := if s.last_error ≠ ERROR_NO_ERROR then flags ||| STATUS_ERROR_PRESENT else flags
  flags

/- ============ Telemetry builders (src/src/packet.c) ============ -/

/-- Little-endian byte serialization of a `uint16_t`. -/
def u16LE (v : Nat) : List Nat := [v % 256, v / 256 % 256]

/-- Little-endian byte serialization of a `uint32_t` (or of the bit
pattern of a 4-byte `float`). -/
def u32LE (v : Nat) : List Nat :=
  [v % 256, v / 2 ^ 8 % 256, v / 2 ^ 16 % 256, v / 2 ^ 24 % 256]

/-- Little-endian bytes of the `float` literal 0.0f. -/
def f32_zero : List Nat := [0x00, 0x00, 0x00, 0x00]

/-- Little-endian bytes of the `float` literal 25.0f (bit pattern
0x41C80000). -/
def f32_25 : List Nat := [0x00, 0x00, 0xC8, 0x41]

/-- Little-endian bytes of the `float` literal 30.0f (bit pattern
0x41F00000). -/
def f32_30 : List Nat := [0x00, 0x00, 0xF0, 0x41]

/-- Model of `packet_build_motor_state` (src/src/packet.c lines
179-224) as the byte sequence of the packed `motor_state_packet_t` it
fills in.  `timestamp` is the `k_uptime_get_32()` value; `imu_valid`
is the result of `imu_is_valid()`; `roll`, `pitch`, `yaw` are the
32-bit patterns of the three floats `imu_get_orientation` reports.
The fifteen kinematic fields are the source's 0.0f placeholders and
the trailing CRC16 is computed over every preceding byte. -/
def packet_build_motor_state (s : SystemState) (segment_id timestamp : Nat)
    (imu_valid : Bool) (roll pitch yaw : Nat) : List Nat :=
  let body :=
    u16LE PACKET_MAGIC_STM32_TO_MASTER ++
    [FEEDBACK_MOTOR_STATE, segment_id % 256] ++
    u32LE timestamp ++
    f32_zero ++ f32_zero ++ f32_zero ++ f32_zero ++ f32_zero ++
    f32_zero ++ f32_zero ++ f32_zero ++ f32_zero ++ f32_zero ++
    f32_zero ++ f32_zero ++ f32_zero ++ f32_zero ++ f32_zero ++
    (if imu_valid then u32LE roll ++ u32LE pitch ++ u32LE yaw
     else f32_zero ++ f32_zero ++ f32_zero) ++
    [packet_get_status_flags s]
  body ++ u16LE (crc16_ccitt 0xFFFF body)

/-- Model of `packet_build_diagnostics` (src/src/packet.c lines
226-249) as the byte sequence of the packed `diagnostics_packet_t` it
fills in: placeholder temperatures 25.0f and 30.0f, the current error
counter and last error code from `SystemState`, placeholder CPU usage
10, and the trailing CRC16 over every preceding byte. -/
def packet_build_diagnostics (s : SystemState) (segment_id timestamp : Nat) : List Nat :=
  let body :=
    u16LE PACKET_MAGIC_STM32_TO_MASTER ++
    [FEEDBACK_DIAGNOSTICS, segment_id % 256] ++
    u32LE timestamp ++
    f32_25 ++ f32_30 ++
    u16LE s.error_count ++
    [s.last_error % 256, 10]
  body ++ u16LE (crc16_ccitt 0xFFFF body)

/- ============ TMC9660 transport (src/src/tmc9660.c, src/unnamed/part_004) ============ -/

def TMC9660_SYNC_BYTE : Nat := 0x55
def TMC9660_DEFAULT_DEVICE_ADDR : Nat := 0x01
def TMC9660_DEFAULT_HOST_ADDR : Nat := 0xFF
def TMC9660_MSG_SIZE : Nat := 8

def TMC9660_CMD_GET_INFO : Nat := 0x00
def TMC9660_CMD_SET_BANK : Nat := 0x09
def TMC9660_CMD_SET_ADDRESS : Nat := 0x0B
def TMC9660_CMD_READ_32 : Nat := 0x0C
def TMC9660_CMD_WRITE_32 : Nat := 0x12

def TMC9660_STATUS_OK : Nat := 0x00
def TMC9660_BANK_CONFIG : Nat := 5
def TMC9660_CONFIG_BASE_ADDR : Nat := 0x00020000
def TMC9660_CONFIG_SIZE : Nat := 64

/-- Zephyr errno values used by the transport return codes (`-E_TIMEDOUT`
for a reply deadline miss, `-E_BADMSG` for a CRC8 mismatch, `-E_IO_ERR` for a
non-OK device status, `-EINVAL` for argument errors). -/
def E_TIMEDOUT : Int := 116
def E_BADMSG : Int := 77
def E_IO_ERR : Int := 5
def E_INVAL : Int := 22

/-- One bit step of the TMC9660 CRC8 (polynomial 0x07, `uint8_t`
accumulator, hence the masking with 0xFF). -/
def crc8_bit (c : Nat) : Nat :=
  if c &&& 0x80 ≠ 0 then ((c <<< 1) ^^^ 0x07) &&& 0xFF
  else (c <<< 1) &&& 0xFF

/-- Fold one data byte into the CRC8 accumulator: xor the byte in,
then run eight bit steps. -/
def crc8_update (crc b : Nat) : Nat :=
  crc8_bit (crc8_bit (crc8_bit (crc8_bit
    (crc8_bit (crc8_bit (crc8_bit (crc8_bit (crc ^^^ b))))))))

/-- Model of `tmc9660_crc8` (polynomial 0x07, initial value 0x00,
computed over the given bytes). -/
def tmc9660_crc8 (data : List Nat) : Nat :=
  data.foldl crc8_update 0

/-- Model of `pack_u32_msb`: the four data-field bytes of a request,
most-significant byte first. -/
def pack_u32_msb (value : Nat) : List Nat :=
  [(value >>> 24) &&& 0xFF, (value >>> 16) &&& 0xFF, (value >>> 8) &&& 0xFF, value &&& 0xFF]

/-- Model of `unpack_u32_msb`: reassemble the 32-bit value from the
four bytes at the head of `src`, most-significant byte first. -/
def unpack_u32_msb (src : List Nat) : Nat :=
  (src.getD 0 0 <<< 24) ||| (src.getD 1 0 <<< 16) ||| (src.getD 2 0 <<< 8) ||| src.getD 3 0

/-- Per-instance `tmc9660_state_t` (device address, host address,
cached current bank, cached current address, initialized flag, chip
identification words). -/
structure Tmc9660State where
  device_addr : Nat
  host_addr : Nat
  current_bank : Nat
  current_addr : Nat
  initialized : Bool
  chip_type : Nat
  chip_version : Nat
  bootloader_version : Nat
deriving DecidableEq

/-- What `tmc9660_transact` did: its C return value, the values it
wrote through the `reply_value` / `reply_status` output pointers
(`none` when the source returns before writing them), and the 8-byte
request frame it sent on the wire. -/
structure TransactOutcome where
  ret : Int
  reply_value : Option Nat
  reply_status : Option Nat
  request : List Nat
deriving DecidableEq

/-- Model of `tmc9660_transact` (src/src/tmc9660.c lines 126-184,
src/unnamed/part_004 lines 142-188).  The serial environment is
passed in as `reply`: `none` when the 100 ms reply deadline elapses
before eight bytes arrive (`uart_recv` returns `-E_TIMEDOUT`), `some r`
when the 8-byte reply frame `r` arrives in time.  The request frame is
built from the sync byte, the instance's device address, the command
byte, the MSB-first packed request value and the CRC8 over those seven
bytes.  On a received reply: a CRC8 mismatch yields `-E_BADMSG` with
neither output written; otherwise the reply value (MSB-first from
bytes 3..6) and status byte (byte 2) are written, and a non-OK status
yields `-E_IO_ERR` after those writes. -/
def tmc9660_transact (st : Tmc9660State) (cmd req_value : Nat)
    (reply : Option (List Nat)) : TransactOutcome :=
  let req7 := [TMC9660_SYNC_BYTE, st.device_addr, cmd] ++ pack_u32_msb req_value
  let req := req7 ++ [tmc9660_crc8 req7]
  match reply with
  | none => { ret := -E_TIMEDOUT, reply_value := none, reply_status := none, request := req }
  | some r =>
    if r.getD 7 0 ≠ tmc9660_crc8 (r.take 7) then
      { ret := -E_BADMSG, reply_value := none, reply_status := none, request := req }
    else
      let value := unpack_u32_msb (r.drop 3)
      let status := r.getD 2 0
      if status ≠ TMC9660_STATUS_OK then
        { ret := -E_IO_ERR, reply_value := some value, reply_status := some status, request := req }
      else
        { ret := 0, reply_value := some value, reply_status := some status, request := req }

/-- Model of `tmc9660_set_bank` (src/src/tmc9660.c lines 269-291,
src/unnamed/part_004 lines 328-354).  Returns the C return value, the
instance state after the call, and the number of transport
transactions performed (0 when the requested bank equals the cached
bank, 1 otherwise).  The cache is updated only when the transaction
succeeds. -/
def tmc9660_set_bank (st : Tmc9660State) (bank : Nat)
    (reply : Option (List Nat)) : Int × Tmc9660State × Nat :=
  if st.current_bank = bank then (0, st, 0)
  else
    let o := tmc9660_transact st TMC9660_CMD_SET_BANK bank reply
    if o.ret = 0 then (0, { st with current_bank := bank }, 1)
    else (o.ret, st, 1)

/-- Model of `tmc9660_set_address` (src/src/tmc9660.c lines 293-310,
src/unnamed/part_004 lines 356-376).  Always performs exactly one
transaction (some commands auto-increment the device's address);
updates the cached address only when the transaction succeeds. -/
def tmc9660_set_address (st : Tmc9660State) (addr : Nat)
    (reply : Option (List Nat)) : Int × Tmc9660State × Nat :=
  let o := tmc9660_transact st TMC9660_CMD_SET_ADDRESS addr reply
  if o.ret = 0 then (0, { st with current_addr := addr }, 1)
  else (o.ret, st, 1)

/- ============ Madgwick estimator (src/unnamed/part_003) ============ -/

open Real in
/-- Model of the C `copysignf(x, y)`: the magnitude of `x` carrying the
sign of `y` (the `y = -0.0f` corner of the float version has no real
counterpart and never arises at the one call site, which is guarded by
`fabsf(sinp) >= 1.0f`). -/
noncomputable def copysignf (x y : ℝ) : ℝ :=
  if y < 0 then -|x| else |x|

open Real in
/-- Model of the pitch computation of `madgwick_get_euler`
(src/unnamed/part_003 lines 139-145), with `float` arithmetic read
over the reals: `sinp = 2*(q0*q2 - q3*q1)`; when `|sinp| >= 1` the
pitch is `copysignf(pi/2, sinp)` instead of `asinf(sinp)`. -/
noncomputable def madgwick_get_euler_pitch (q0 q1 q2 q3 : ℝ) : ℝ :=
  let sinp := 2 * (q0 * q2 - q3 * q1)
  if 1 ≤ |sinp| then copysignf (π / 2) sinp
  else arcsin sinp

/- ============ Concrete sample data for witnesses ============ -/

/-- Sample dispatcher state (segment id 1, homing, no error latched)
used to instantiate the packet-layer theorems. -/
def sampleState : SystemState :=
  { current_mode := MODE_HOMING, emergency_stop_active := false,
    error_count := 3, last_error := ERROR_NO_ERROR, my_segment_id := 1 }

/-- A 7-byte EmergencyStop command: magic 0xAA55, type 0x02, target
0xFF (broadcast), reason 0x01, and a correct CRC16 trailer. -/
def estopBroadcastFrame : List Nat := [0x55, 0xAA, 0x02, 0xFF, 0x01, 0x0A, 0xD8]

/-- A 7-byte SetMode command with the out-of-range mode byte 0x77 and
a correct CRC16 trailer. -/
def setModeRawFrame : List Nat := [0x55, 0xAA, 0x08, 0x01, 0x77, 0x54, 0x31]

/-- A 7-byte SetMode command requesting Operation (mode 0x03), with a
correct CRC16 trailer. -/
def setModeOperationFrame : List Nat := [0x55, 0xAA, 0x08, 0x01, 0x03, 0x47, 0x0F]

/-- An 8-byte buffer that passes the magic and CRC16 checks and names
type 0x08 (SetMode, fixed size 7) at offset 2 — a size-mismatched
SetMode command. -/
def setModeOversizeFrame : List Nat := [0x55, 0xAA, 0x08, 0x01, 0x03, 0x00, 0xEF, 0xB6]

/-- A 7-byte buffer that passes the magic and CRC16 checks but carries
the unknown type byte 0x06. -/
def unknownTypeFrame : List Nat := [0x55, 0xAA, 0x06, 0x01, 0x00, 0x25, 0x24]

/-- Sample freshly-initialized motor instance state (cached bank 0xFF,
the sentinel forcing a transaction on first access). -/
def sampleTmcState : Tmc9660State :=
  { device_addr := 0x01, host_addr := 0xFF, current_bank := 0xFF, current_addr := 0,
    initialized := true, chip_type := 0x544D0001, chip_version := 1,
    bootloader_version := 1 }

/-- An 8-byte TMC9660 reply frame with status OK and a correct CRC8. -/
def okReplyFrame : List Nat := [0xFF, 0x01, 0x00, 0x00, 0x00, 0x00, 0x00, 0x6D]

/-- An 8-byte TMC9660 reply frame with a correct CRC8 but the non-OK
status byte 0x01 (CMD_NOT_FOUND) and reply data 0xDEADBEEF. -/
def statusErrReplyFrame : List Nat := [0xFF, 0x01, 0x01, 0xDE, 0xAD, 0xBE, 0xEF, 0xC5]

/- ============ Claim theorems: packet dispatch ============ -/

/-- C1: for every buffer that passes the length, magic and CRC16
checks and carries the EmergencyStop type byte with the exact
EmergencyStop size, dispatching sets the emergency-stop latch and
forces Idle exactly when the target segment id (offset 3) is the
broadcast value 0xFF or this node's own id, and otherwise returns the
state entirely unchanged; the return value is the packet type. -/
theorem estop_dispatch_broadcast_or_own_id_latches_else_no_effect
    (s : SystemState) (data : List Nat)
    (hlen : data.length = emergency_stop_packet_size)
    (hmagic : data.getD 0 0 ||| (data.getD 1 0 <<< 8) = PACKET_MAGIC_MASTER_TO_STM32)
    (hcrc : crc16_verify data = true)
    (htype : data.getD 2 0 = CMD_EMERGENCY_STOP) :
    packet_parse_command s data =
      ((CMD_EMERGENCY_STOP : Int),
       if data.getD 3 0 = 0xFF ∨ data.getD 3 0 = s.my_segment_id then
         { s with emergency_stop_active := true, current_mode := MODE_IDLE }
       else s) := by
  simp only [packet_parse_command, packet_handle_emergency_stop]
  rw [hlen, hmagic, hcrc, htype]
  norm_num [PACKET_MAGIC_MASTER_TO_STM32, CMD_TRAJECTORY, CMD_EMERGENCY_STOP,
    CMD_START_HOMING, CMD_JOG_MOTOR, CMD_SET_MODE, CMD_SET_ZERO_OFFSET,
    emergency_stop_packet_size, trajectory_packet_size, start_homing_packet_size,
    jog_motor_packet_size, set_mode_packet_size, set_zero_offset_packet_size]

/-- Witness for C1: the broadcast EmergencyStop frame latches the stop
and forces Idle on the sample state. -/
theorem estop_dispatch_broadcast_witness :
    packet_parse_command sampleState estopBroadcastFrame =
      ((CMD_EMERGENCY_STOP : Int),
       { sampleState with emergency_stop_active := true, current_mode := MODE_IDLE }) :=
  (estop_dispatch_broadcast_or_own_id_latches_else_no_effect sampleState estopBroadcastFrame
    (by decide) (by decide) (by decide) (by decide)).trans (by decide)

/-- Sample dispatcher state in which an EmergencyStop has latched the
stop and forced Idle. -/
def estopLatchedState : SystemState :=
  { sampleState with emergency_stop_active := true, current_mode := MODE_IDLE }

/-- C2: for every buffer that passes the length, magic and CRC16
checks, carries the SetMode type byte with the exact SetMode size, and
requests mode Operation (0x03) at offset 4, dispatching sets the mode
to Operation and clears the emergency-stop latch, regardless of the
latch's prior value. -/
theorem set_mode_operation_clears_estop_latch
    (s : SystemState) (data : List Nat)
    (hlen : data.length = set_mode_packet_size)
    (hmagic : data.getD 0 0 ||| (data.getD 1 0 <<< 8) = PACKET_MAGIC_MASTER_TO_STM32)
    (hcrc : crc16_verify data = true)
    (htype : data.getD 2 0 = CMD_SET_MODE)
    (hmode : data.getD 4 0 = MODE_OPERATION) :
    packet_parse_command s data =
      ((CMD_SET_MODE : Int),
       { s with current_mode := MODE_OPERATION, emergency_stop_active := false }) := by
  simp only [packet_parse_command, packet_handle_set_mode]
  rw [hlen, hmagic, hcrc, htype, hmode]
  norm_num [PACKET_MAGIC_MASTER_TO_STM32, CMD_TRAJECTORY, CMD_EMERGENCY_STOP,
    CMD_START_HOMING, CMD_JOG_MOTOR, CMD_SET_MODE, CMD_SET_ZERO_OFFSET, MODE_OPERATION,
    emergency_stop_packet_size, trajectory_packet_size, start_homing_packet_size,
    jog_motor_packet_size, set_mode_packet_size, set_zero_offset_packet_size]

/-- Witness for C2: on a state whose latch was set by an
EmergencyStop, the SetMode(Operation) frame clears the latch. -/
theorem set_mode_operation_clears_estop_latch_witness :
    packet_parse_command estopLatchedState setModeOperationFrame =
      ((CMD_SET_MODE : Int),
       { estopLatchedState with
           current_mode := MODE_OPERATION
           emergency_stop_active := false }) :=
  (set_mode_operation_clears_estop_latch estopLatchedState setModeOperationFrame
    (by decide) (by decide) (by decide) (by decide) (by decide)).trans (by decide)

/-- C5: the SetMode handler writes the raw requested mode byte
(offset 4) into `current_mode` unconditionally: every validated
SetMode frame overwrites the mode with that byte, whatever its value,
so the three-state mode invariant is not preserved by this operation. -/
theorem set_mode_writes_raw_mode_byte
    (s : SystemState) (data : List Nat)
    (hlen : data.length = set_mode_packet_size)
    (hmagic : data.getD 0 0 ||| (data.getD 1 0 <<< 8) = PACKET_MAGIC_MASTER_TO_STM32)
    (hcrc : crc16_verify data = true)
    (htype : data.getD 2 0 = CMD_SET_MODE) :
    (packet_parse_command s data).2.current_mode = data.getD 4 0 := by
  simp only [packet_parse_command, packet_handle_set_mode]
  rw [hlen, hmagic, hcrc, htype]
  norm_num [PACKET_MAGIC_MASTER_TO_STM32, CMD_TRAJECTORY, CMD_EMERGENCY_STOP,
    CMD_START_HOMING, CMD_JOG_MOTOR, CMD_SET_MODE, CMD_SET_ZERO_OFFSET,
    emergency_stop_packet_size, trajectory_packet_size, start_homing_packet_size,
    jog_motor_packet_size, set_mode_packet_size, set_zero_offset_packet_size]
  split <;> rfl

/-- Witness for C5: a validated SetMode frame carrying the
out-of-range mode byte 0x77 leaves the system in mode 0x77, which is
none of Idle, Homing or Operation. -/
theorem set_mode_writes_raw_mode_byte_witness :
    (packet_parse_command sampleState setModeRawFrame).2.current_mode = 0x77 ∧
    (0x77 ≠ MODE_IDLE ∧ 0x77 ≠ MODE_HOMING ∧ 0x77 ≠ MODE_OPERATION) :=
  ⟨(set_mode_writes_raw_mode_byte sampleState setModeRawFrame
      (by decide) (by decide) (by decide) (by decide)).trans (by decide),
   by decide⟩

/- ============ Claim theorems: size mismatch and error bookkeeping ============ -/

/-- Counterexample to C3 as stated: `setModeOversizeFrame` passes the
length, magic and CRC16 checks, names type 0x08 (SetMode) at offset 2,
and its total length 8 differs from SetMode's fixed size 7 — yet
`packet_parse_command` returns the packet type 0x08, a non-negative
success result, not a SizeMismatch error. -/
theorem size_mismatch_success_return_counterexample :
    6 ≤ setModeOversizeFrame.length ∧
    setModeOversizeFrame.getD 0 0 ||| (setModeOversizeFrame.getD 1 0 <<< 8) =
      PACKET_MAGIC_MASTER_TO_STM32 ∧
    crc16_verify setModeOversizeFrame = true ∧
    setModeOversizeFrame.getD 2 0 = CMD_SET_MODE ∧
    setModeOversizeFrame.length ≠ packet_command_size CMD_SET_MODE ∧
    (packet_parse_command sampleState setModeOversizeFrame).1 = (CMD_SET_MODE : Int) ∧
    ¬ (packet_parse_command sampleState setModeOversizeFrame).1 < 0 := by
  decide

/-- C3 (amended): for every buffer that passes the length, magic and
CRC16 checks but whose total length differs from the fixed size of the
known command type named at offset 2, no handler runs and the
SystemState is returned unchanged; however the return value is -1 only
for Trajectory and EmergencyStop — for StartHoming, JogMotor, SetMode
and SetZeroOffset the dispatcher falls through and returns the packet
type, a success result. -/
theorem size_mismatch_no_handler_split
    (s : SystemState) (data : List Nat)
    (hlen6 : ¬ data.length < 6)
    (hmagic : data.getD 0 0 ||| (data.getD 1 0 <<< 8) = PACKET_MAGIC_MASTER_TO_STM32)
    (hcrc : crc16_verify data = true)
    (hknown : data.getD 2 0 = CMD_TRAJECTORY ∨ data.getD 2 0 = CMD_EMERGENCY_STOP ∨
              data.getD 2 0 = CMD_START_HOMING ∨ data.getD 2 0 = CMD_JOG_MOTOR ∨
              data.getD 2 0 = CMD_SET_MODE ∨ data.getD 2 0 = CMD_SET_ZERO_OFFSET)
    (hsize : data.length ≠ packet_command_size (data.getD 2 0)) :
    (packet_parse_command s data).2 = s ∧
    (packet_parse_command s data).1 =
      (if data.getD 2 0 = CMD_TRAJECTORY ∨ data.getD 2 0 = CMD_EMERGENCY_STOP then -1
       else (data.getD 2 0 : Int)) := by
  rcases hknown with h | h | h | h | h | h <;>
    (rw [h] at hsize;
     norm_num [packet_command_size, CMD_TRAJECTORY, CMD_EMERGENCY_STOP, CMD_START_HOMING,
       CMD_JOG_MOTOR, CMD_SET_MODE, CMD_SET_ZERO_OFFSET, trajectory_packet_size,
       emergency_stop_packet_size, start_homing_packet_size, jog_motor_packet_size,
       set_mode_packet_size, set_zero_offset_packet_size] at hsize;
     simp only [packet_parse_command];
     rw [hmagic, hcrc, h];
     norm_num [hlen6, hsize, CMD_TRAJECTORY, CMD_EMERGENCY_STOP, CMD_START_HOMING,
       CMD_JOG_MOTOR, CMD_SET_MODE, CMD_SET_ZERO_OFFSET, trajectory_packet_size,
       emergency_stop_packet_size, start_homing_packet_size, jog_motor_packet_size,
       set_mode_packet_size, set_zero_offset_packet_size])

/-- Witness for the amended C3: the size-mismatched SetMode buffer
leaves the state untouched and yields the fall-through success
return. -/
theorem size_mismatch_no_handler_witness :
    (packet_parse_command sampleState setModeOversizeFrame).2 = sampleState ∧
    (packet_parse_command sampleState setModeOversizeFrame).1 =
      (if setModeOversizeFrame.getD 2 0 = CMD_TRAJECTORY ∨
          setModeOversizeFrame.getD 2 0 = CMD_EMERGENCY_STOP then -1
       else (setModeOversizeFrame.getD 2 0 : Int)) :=
  size_mismatch_no_handler_split sampleState setModeOversizeFrame
    (by decide) (by decide) (by decide) (by decide) (by decide)

/-- Counterexample to C4 as stated: `unknownTypeFrame` passes the
magic and CRC16 checks but carries the unknown type byte 0x06, so the
parse fails with -1 — yet the SystemState (in particular its error
counter and last-error code) is completely unchanged. -/
theorem unknown_type_error_counter_unchanged_counterexample :
    crc16_verify unknownTypeFrame = true ∧
    (packet_parse_command sampleState unknownTypeFrame).1 = -1 ∧
    (packet_parse_command sampleState unknownTypeFrame).2 = sampleState ∧
    sampleState.error_count = 3 ∧ sampleState.last_error = ERROR_NO_ERROR := by
  decide

/-- C4 (amended): exactly the three framing-level failures (buffer
shorter than 6 bytes, magic mismatch, CRC16 mismatch) increment the
running error counter by one (as a `uint16_t`) and record
`ERROR_CRC_ERROR`, returning -1; on every other buffer — successful
dispatches as well as size-mismatch and unknown-type errors — the
error counter and last-error code are left untouched.  The dispatcher
is a total function: it always returns control to the caller. -/
theorem error_counter_incremented_iff_framing_error
    (s : SystemState) (data : List Nat) :
    if data.length < 6 ∨
       data.getD 0 0 ||| (data.getD 1 0 <<< 8) ≠ PACKET_MAGIC_MASTER_TO_STM32 ∨
       crc16_verify data = false then
      packet_parse_command s data = (-1, recordPacketError s)
    else
      (packet_parse_command s data).2.error_count = s.error_count ∧
      (packet_parse_command s data).2.last_error = s.last_error := by
  by_cases h1 : data.length < 6
  · rw [if_pos (Or.inl h1)]
    simp only [packet_parse_command]
    rw [if_pos h1]
  by_cases h2 : data.getD 0 0 ||| (data.getD 1 0 <<< 8) = PACKET_MAGIC_MASTER_TO_STM32
  · by_cases h3 : crc16_verify data = true
    · have hcond : ¬ (data.length < 6 ∨
          data.getD 0 0 ||| (data.getD 1 0 <<< 8) ≠ PACKET_MAGIC_MASTER_TO_STM32 ∨
          crc16_verify data = false) := by
        rintro (h | h | h)
        · exact h1 h
        · exact h h2
        · rw [h3] at h; exact Bool.noConfusion h
      rw [if_neg hcond]
      simp only [packet_parse_command, packet_handle_emergency_stop, packet_handle_set_mode]
      rw [if_neg h1, if_neg (not_not_intro h2), if_neg (not_not_intro h3)]
      split_ifs <;> simp
    · have h3f : crc16_verify data = false := by
        cases hcv : crc16_verify data
        · rfl
        · exact absurd hcv h3
      rw [if_pos (Or.inr (Or.inr h3f))]
      simp only [packet_parse_command]
      rw [if_neg h1, if_neg (not_not_intro h2), if_pos h3]
  · rw [if_pos (Or.inr (Or.inl h2))]
    simp only [packet_parse_command]
    rw [if_neg h1, if_pos h2]

/- ============ Claim theorems: TMC9660 transport ============ -/

/-- C6: two consecutive `set_bank(X)` calls with no intervening bank
change: the first performs a transaction only when `X` differs from
the cached bank (and, succeeding, caches `X`); the second finds the
cache equal to `X`, returns success, and performs no transaction, so
at most one transaction happens in total. -/
theorem set_bank_twice_single_transaction
    (st : Tmc9660State) (bank : Nat) (r1 r2 : Option (List Nat))
    (hsucc : (tmc9660_transact st TMC9660_CMD_SET_BANK bank r1).ret = 0) :
    (tmc9660_set_bank st bank r1).1 = 0 ∧
    ((tmc9660_set_bank st bank r1).2.1).current_bank = bank ∧
    (tmc9660_set_bank st bank r1).2.2 = (if st.current_bank = bank then 0 else 1) ∧
    tmc9660_set_bank (tmc9660_set_bank st bank r1).2.1 bank r2 =
      (0, (tmc9660_set_bank st bank r1).2.1, 0) := by
  by_cases h : st.current_bank = bank
  · simp [tmc9660_set_bank, h]
  · simp [tmc9660_set_bank, h, hsucc]

/-- Witness for C6: from the freshly-initialized cache (0xFF), setting
the CONFIG bank with a successful reply transacts once and caches the
bank; the immediate repeat call transacts zero times and succeeds
without touching the channel (reply `none`). -/
theorem set_bank_twice_single_transaction_witness :
    (tmc9660_set_bank sampleTmcState TMC9660_BANK_CONFIG (some okReplyFrame)).1 = 0 ∧
    ((tmc9660_set_bank sampleTmcState TMC9660_BANK_CONFIG (some okReplyFrame)).2.1).current_bank =
      TMC9660_BANK_CONFIG ∧
    (tmc9660_set_bank sampleTmcState TMC9660_BANK_CONFIG (some okReplyFrame)).2.2 =
      (if sampleTmcState.current_bank = TMC9660_BANK_CONFIG then 0 else 1) ∧
    tmc9660_set_bank (tmc9660_set_bank sampleTmcState TMC9660_BANK_CONFIG
        (some okReplyFrame)).2.1 TMC9660_BANK_CONFIG none =
      (0, (tmc9660_set_bank sampleTmcState TMC9660_BANK_CONFIG (some okReplyFrame)).2.1, 0) :=
  set_bank_twice_single_transaction sampleTmcState TMC9660_BANK_CONFIG
    (some okReplyFrame) none (by decide)

/-- C7: whenever the underlying transaction of `set_bank` or
`set_address` fails (timeout, CRC8 mismatch, or non-OK device status,
i.e. a non-zero return), the instance state — in particular the cached
current bank and cached current address — keeps exactly the values it
had before the call. -/
theorem transact_failure_leaves_cache_unchanged
    (st : Tmc9660State) (bank addr : Nat) (rb ra : Option (List Nat))
    (hb : (tmc9660_transact st TMC9660_CMD_SET_BANK bank rb).ret ≠ 0)
    (ha : (tmc9660_transact st TMC9660_CMD_SET_ADDRESS addr ra).ret ≠ 0) :
    (tmc9660_set_bank st bank rb).2.1 = st ∧
    (tmc9660_set_address st addr ra).2.1 = st := by
  constructor
  · unfold tmc9660_set_bank
    by_cases h : st.current_bank = bank
    · simp [h]
    · simp [h, hb]
  · unfold tmc9660_set_address
    simp [ha]

/-- Witness for C7: a timed-out bank switch and a timed-out address
write both leave the sample instance state exactly as it was. -/
theorem transact_failure_leaves_cache_unchanged_witness :
    (tmc9660_set_bank sampleTmcState TMC9660_BANK_CONFIG none).2.1 = sampleTmcState ∧
    (tmc9660_set_address sampleTmcState (TMC9660_CONFIG_BASE_ADDR + 4) none).2.1 =
      sampleTmcState :=
  transact_failure_leaves_cache_unchanged sampleTmcState TMC9660_BANK_CONFIG
    (TMC9660_CONFIG_BASE_ADDR + 4) none none (by decide) (by decide)

/-- C8: when a reply frame arrives in time and passes the CRC8 check
but carries a status byte different from OK (0x00), `transact` returns
the device-status error `-EIO`, and the 32-bit reply value extracted
MSB-first from the reply's data field (bytes 3..6) has already been
written to the caller's output parameter, together with the status
byte — the value is surfaced, not discarded. -/
theorem transact_status_error_surfaces_reply_value
    (st : Tmc9660State) (cmd req_value : Nat) (r : List Nat)
    (hcrc : r.getD 7 0 = tmc9660_crc8 (r.take 7))
    (hstatus : r.getD 2 0 ≠ TMC9660_STATUS_OK) :
    (tmc9660_transact st cmd req_value (some r)).ret = -E_IO_ERR ∧
    (tmc9660_transact st cmd req_value (some r)).reply_value =
      some (unpack_u32_msb (r.drop 3)) ∧
    (tmc9660_transact st cmd req_value (some r)).reply_status = some (r.getD 2 0) := by
  unfold tmc9660_transact
  simp only [List.getD_eq_getElem?_getD] at hcrc hstatus
  simp [hcrc, hstatus]

/-- Witness for C8: the reply frame with status 0x01 and data
0xDEADBEEF produces the `-EIO` device-status error while surfacing
both the status and the extracted value. -/
theorem transact_status_error_surfaces_reply_value_witness :
    (tmc9660_transact sampleTmcState TMC9660_CMD_READ_32 0 (some statusErrReplyFrame)).ret =
      -E_IO_ERR ∧
    (tmc9660_transact sampleTmcState TMC9660_CMD_READ_32 0
        (some statusErrReplyFrame)).reply_value =
      some (unpack_u32_msb (statusErrReplyFrame.drop 3)) ∧
    (tmc9660_transact sampleTmcState TMC9660_CMD_READ_32 0
        (some statusErrReplyFrame)).reply_status = some (statusErrReplyFrame.getD 2 0) :=
  transact_status_error_surfaces_reply_value sampleTmcState TMC9660_CMD_READ_32 0
    statusErrReplyFrame (by decide) (by decide)

/- ============ Claim theorems: telemetry CRC16 round-trip ============ -/

/-- The CRC16 accumulator stays a 16-bit value after every bit step. -/
theorem crc16_bit_lt (c : Nat) : crc16_bit c < 65536 := by
  unfold crc16_bit
  split
  · have h : ((c <<< 1) ^^^ 0x1021) &&& 0xFFFF ≤ 0xFFFF := Nat.and_le_right
    omega
  · have h : (c <<< 1) &&& 0xFFFF ≤ 0xFFFF := Nat.and_le_right
    omega

/-- The CRC16 accumulator stays a 16-bit value after every byte. -/
theorem crc16_update_lt (crc b : Nat) : crc16_update crc b < 65536 := by
  unfold crc16_update
  exact crc16_bit_lt _

/-- The CRC16 of any byte list, from a 16-bit seed, is a 16-bit value. -/
theorem crc16_ccitt_lt (data : List Nat) :
    ∀ seed, seed < 65536 → crc16_ccitt seed data < 65536 := by
  induction data with
  | nil => intro seed h; simpa [crc16_ccitt] using h
  | cons b l ih =>
    intro seed _
    simpa [crc16_ccitt, List.foldl] using ih (crc16_update seed b) (crc16_update_lt seed b)

/-- Reassembling a 16-bit value from its low byte and shifted high
byte recovers the value. -/
theorem lor_low_high_split (c : Nat) :
    c % 256 ||| ((c / 256) <<< 8) = c := by
  have h256 : (256 : Nat) = 2 ^ 8 := by norm_num
  have hdiv : c / 256 = c >>> 8 := by
    rw [Nat.shiftRight_eq_div_pow]
  apply Nat.eq_of_testBit_eq
  intro i
  rw [Nat.testBit_lor, Nat.testBit_shiftLeft, hdiv, Nat.testBit_shiftRight, h256,
    Nat.testBit_mod_two_pow]
  by_cases hi : i < 8
  · have h8 : ¬ (8 ≤ i) := by omega
    simp [hi, h8]
  · have h8 : 8 ≤ i := by omega
    have hisum : 8 + (i - 8) = i := by omega
    simp [hi, h8, hisum]

/-- Appending the little-endian encoding of a byte list's own CRC16
produces a frame that `crc16_verify` accepts. -/
theorem crc16_verify_append (body : List Nat) :
    crc16_verify (body ++ u16LE (crc16_ccitt 0xFFFF body)) = true := by
  have hc : crc16_ccitt 0xFFFF body < 65536 := crc16_ccitt_lt body 0xFFFF (by norm_num)
  unfold crc16_verify u16LE
  have hlen : (body ++ [crc16_ccitt 0xFFFF body % 256,
      crc16_ccitt 0xFFFF body / 256 % 256]).length = body.length + 2 := by
    simp
  rw [hlen]
  have h2 : ¬ (body.length + 2 < 2) := by omega
  rw [if_neg h2]
  have hsub2 : body.length + 2 - 2 = body.length := by omega
  have hsub1 : body.length + 2 - 1 = body.length + 1 := by omega
  rw [hsub2, hsub1]
  have htake : (body ++ [crc16_ccitt 0xFFFF body % 256,
      crc16_ccitt 0xFFFF body / 256 % 256]).take body.length = body :=
    List.take_left body _
  have hg1 : (body ++ [crc16_ccitt 0xFFFF body % 256,
      crc16_ccitt 0xFFFF body / 256 % 256]).getD body.length 0 =
      crc16_ccitt 0xFFFF body % 256 := by
    rw [List.getD_append_right _ _ _ _ (le_refl _)]
    simp
  have hg2 : (body ++ [crc16_ccitt 0xFFFF body % 256,
      crc16_ccitt 0xFFFF body / 256 % 256]).getD (body.length + 1) 0 =
      crc16_ccitt 0xFFFF body / 256 := by
    rw [List.getD_append_right _ _ _ _ (by omega)]
    have hone : body.length + 1 - body.length = 1 := by omega
    rw [hone]
    have : crc16_ccitt 0xFFFF body / 256 % 256 = crc16_ccitt 0xFFFF body / 256 :=
      Nat.mod_eq_of_lt (by omega)
    simp [this]
  rw [htake, hg1, hg2]
  simp only [lor_low_high_split, beq_self_eq_true]

/-- C9: every frame produced by the two telemetry builders satisfies
`crc16_verify`: the CRC16-CCITT computed over all bytes of the frame
except the final two equals the little-endian 16-bit value stored in
those final two bytes — for every segment id, SystemState, timestamp
and orientation input. -/
theorem telemetry_frames_crc16_roundtrip
    (s : SystemState) (segment_id timestamp : Nat)
    (imu_valid : Bool) (roll pitch yaw : Nat) :
    crc16_verify (packet_build_diagnostics s segment_id timestamp) = true ∧
    crc16_verify (packet_build_motor_state s segment_id timestamp
      imu_valid roll pitch yaw) = true := by
  constructor
  · unfold packet_build_diagnostics
    exact crc16_verify_append _
  · unfold packet_build_motor_state
    exact crc16_verify_append _

/- ============ Claim theorems: Madgwick pitch ============ -/

open Real in
/-- C10: the pitch computed by `get_euler` is always a well-defined
value in the closed interval [-90°, +90°] (so never an out-of-domain
inverse sine, for any quaternion including one whose implied vertical
component is exactly one in magnitude); whenever the intermediate sine
term `2*(q0*q2 - q3*q1)` has magnitude at least 1, the pitch is
exactly ±90° carrying that term's sign, and only otherwise is the
inverse sine evaluated — on an argument strictly inside its domain. -/
theorem get_euler_pitch_clamped_and_bounded (q0 q1 q2 q3 : ℝ) :
    madgwick_get_euler_pitch q0 q1 q2 q3 =
      (if 1 ≤ |2 * (q0 * q2 - q3 * q1)| then
         (if 2 * (q0 * q2 - q3 * q1) < 0 then -(π / 2) else π / 2)
       else arcsin (2 * (q0 * q2 - q3 * q1))) ∧
    |madgwick_get_euler_pitch q0 q1 q2 q3| ≤ π / 2 := by
  have hpi : (0 : ℝ) < π / 2 := Real.pi_div_two_pos
  constructor
  · simp only [madgwick_get_euler_pitch, copysignf]
    split_ifs <;> (first | rfl | rw [abs_of_pos hpi])
  · simp only [madgwick_get_euler_pitch, copysignf]
    split_ifs
    · rw [abs_neg, abs_abs, abs_of_pos hpi]
    · rw [abs_abs, abs_of_pos hpi]
    · have hm := Real.arcsin_mem_Icc (2 * (q0 * q2 - q3 * q1))
      rw [abs_le]
      exact ⟨hm.1, hm.2⟩
